import Mathlib

/-!
Verification of the temporal automation core of the memorystack repository
(src/src-tauri/src/db.rs and src/src-tauri/src/main.rs).

Shallow embedding conventions:
* SQL timestamps of format "%Y-%m-%d %H:%M:%S" are modelled as `Int` seconds
  since 1970-01-01 00:00:00, and plain dates "%Y-%m-%d" as `Int` days since
  1970-01-01.  Lexicographic comparison of those strings coincides with the
  numeric order, and formatting is injective, so string comparisons in the
  SQL WHERE clauses are modelled by `Int` comparisons.
* Tables are modelled as lists of rows; `UPDATE ... WHERE id = ?` maps the
  update over all rows whose id matches; `SELECT ... WHERE p` is `filter`,
  `ORDER BY` is a stable `insertionSort`, `COUNT` is `length`.
* Fallible notification delivery is a function `Int -> Bool` giving the
  outcome per event id; fallible summary generation is a `Bool` per call.
  The scheduler code swallows these failures, which the model reflects.
* SQLite row ids and the `last_insert_rowid` of summaries are storage
  details never consulted by the modelled subsystem, so the `Summary`
  model omits the id column.
-/

namespace Memorystack

/-! ## Calendar arithmetic (mirrors chrono date computations) -/

/-- A calendar date, the result of rendering a day index with "%Y-%m-%d". -/
structure CivilDate where
  year : Int
  month : Int
  day : Int
deriving Repr, DecidableEq

/-- Days-since-1970 to calendar date (standard civil-from-days algorithm,
floor division throughout).  Models chrono reading year()/month()/day(). -/
def civilFromDays (z0 : Int) : CivilDate :=
  let z := z0 + 719468
  let era := z.fdiv 146097
  let doe := z - era * 146097
  let yoe := (doe - doe.fdiv 1460 + doe.fdiv 36524 - doe.fdiv 146096).fdiv 365
  let y := yoe + era * 400
  let doy := doe - (365 * yoe + yoe.fdiv 4 - yoe.fdiv 100)
  let mp := (5 * doy + 2).fdiv 153
  let d := doy - (153 * mp + 2).fdiv 5 + 1
  let m := mp + (if mp < 10 then 3 else -9)
  ⟨y + (if m ≤ 2 then 1 else 0), m, d⟩

/-- Calendar date to days-since-1970 (standard days-from-civil algorithm). -/
def daysFromCivil (y0 m d : Int) : Int :=
  let y := y0 - (if m ≤ 2 then 1 else 0)
  let era := y.fdiv 400
  let yoe := y - era * 400
  let mp := m + (if 2 < m then -3 else 9)
  let doy := (153 * mp + 2).fdiv 5 + d - 1
  let doe := yoe * 365 + yoe.fdiv 4 - yoe.fdiv 100 + doy
  era * 146097 + doe - 719468

/-- chrono weekday() == Mon test: 1970-01-01 (day 0) was a Thursday. -/
def isMonday (z : Int) : Bool := (z + 3).emod 7 == 0

/-- chrono day(): day of month of a day index. -/
def dayOfMonth (z : Int) : Int := (civilFromDays z).day

/-- Two-digit zero padding, as in the "%m"/"%d"/"%H" format specifiers. -/
def pad2 (n : Int) : String := if n < 10 then "0" ++ toString n else toString n

/-- Rendering of a day index with "%Y-%m-%d". -/
def formatDate (z : Int) : String :=
  let c := civilFromDays z
  toString c.year ++ "-" ++ pad2 c.month ++ "-" ++ pad2 c.day

/-- Rendering of a seconds timestamp with "%Y年%m月%d日 %H:%M". -/
def formatCNMinute (sec : Int) : String :=
  let c := civilFromDays (sec.fdiv 86400)
  let r := sec.emod 86400
  toString c.year ++ "年" ++ pad2 c.month ++ "月" ++ pad2 c.day ++ "日 " ++
    pad2 (r.fdiv 3600) ++ ":" ++ pad2 ((r.emod 3600).fdiv 60)

/-- Rendering of a seconds timestamp with "%Y年%m月%d日 %H:%M:%S". -/
def formatCNSecond (sec : Int) : String :=
  formatCNMinute sec ++ ":" ++ pad2 (sec.emod 60)

/-! ## Data model of the reminder subsystem (db.rs) -/

/-- Row of the events table (struct Event in db.rs).  reminder_time is the
optional reminder timestamp (NULL = none); created_at/updated_at are kept
as opaque strings, never consulted by the reminder logic. -/
structure Event where
  id : Int
  title : String
  description : Option String
  event_date : String
  project_id : Option Int
  event_type : Option String
  reminder_time : Option Int
  reminder_triggered : Bool
  created_at : String
  updated_at : String
deriving Repr, DecidableEq

/-- Row of the projects table (struct Project in db.rs); only id and name
are read by the reminder path. -/
structure Project where
  id : Int
  name : String
  description : Option String
  created_at : String
  updated_at : String
deriving Repr, DecidableEq

/-- Row of the contacts table (struct Contact in db.rs). -/
structure Contact where
  id : Int
  name : String
  title : Option String
  notes : Option String
  tags : Option String
  phone : Option String
  email : Option String
  address : Option String
  company : Option String
  created_at : String
  updated_at : String
deriving Repr, DecidableEq

/-- struct EventWithDetails in db.rs. -/
structure EventWithDetails where
  event : Event
  contacts : List Contact
  project_name : Option String
deriving Repr, DecidableEq

/-- The tables read or written by the reminder subsystem. -/
structure RemDB where
  events : List Event
  projects : List Project
  contacts : List Contact
  events_contacts : List (Int × Int)
deriving Repr, DecidableEq

/-- The WHERE clause of the pending-reminder query (db.rs fetch_pending_reminders):
reminder_time IS NOT NULL AND reminder_time <= now AND
reminder_time >= now - 1 minute AND (reminder_triggered = 0 OR IS NULL). -/
def reminderDue (now : Int) (e : Event) : Bool :=
  match e.reminder_time with
  | none => false
  | some t => decide (t ≤ now) && decide (now - 60 ≤ t) && !e.reminder_triggered

/-- db.rs fetch_contacts_for_event: contacts joined through events_contacts,
ORDER BY c.name. -/
def fetch_contacts_for_event (db : RemDB) (event_id : Int) : List Contact :=
  List.insertionSort (fun a b => a.name ≤ b.name)
    (db.contacts.filter (fun c =>
      db.events_contacts.any (fun link => link.1 == event_id && link.2 == c.id)))

/-- The HashMap built from SELECT id, name FROM projects, then looked up. -/
def lookupProjectName (projects : List Project) (pid : Int) : Option String :=
  (projects.find? (fun p => p.id == pid)).map (fun p => p.name)

/-- db.rs fetch_pending_reminders: the filtered events decorated with their
contacts and project name. -/
def fetch_pending_reminders (now : Int) (db : RemDB) : List EventWithDetails :=
  (db.events.filter (reminderDue now)).map (fun e =>
    { event := e
      contacts := fetch_contacts_for_event db e.id
      project_name := e.project_id.bind (lookupProjectName db.projects) })

/-- db.rs mark_reminder_triggered: UPDATE events SET reminder_triggered = 1
WHERE id = event_id. -/
def mark_reminder_triggered (event_id : Int) (events : List Event) : List Event :=
  events.map (fun e =>
    if e.id = event_id then { e with reminder_triggered := true } else e)

/-- db.rs update_event_reminder: UPDATE events SET reminder_time = new,
reminder_triggered = 0 WHERE id = event_id. -/
def update_event_reminder (event_id : Int) (reminder_time : Option Int)
    (events : List Event) : List Event :=
  events.map (fun e =>
    if e.id = event_id then
      { e with reminder_time := reminder_time, reminder_triggered := false }
    else e)

/-- db.rs update_event: rewrites all listed columns and sets
reminder_triggered = 0 unconditionally (the comment above the SQL says the
reset is meant for a changed reminder time, but the statement always resets). -/
def update_event (event_id : Int) (title : String) (description : Option String)
    (event_date : String) (project_id : Option Int) (event_type : Option String)
    (reminder_time : Option Int) (events : List Event) : List Event :=
  events.map (fun e =>
    if e.id = event_id then
      { e with title := title, description := description, event_date := event_date,
               project_id := project_id, event_type := event_type,
               reminder_time := reminder_time, reminder_triggered := false }
    else e)

/-- A notification handed to the system notification plugin, together with
the delivery outcome reported back (main.rs reminder_check_task). -/
structure Notification where
  eventId : Int
  title : String
  body : String
  delivered : Bool
deriving Repr, DecidableEq

/-- Title and body composition of main.rs reminder_check_task. -/
def composeNotification (ok : Int → Bool) (ed : EventWithDetails) : Notification :=
  { eventId := ed.event.id
    title := "事件提醒: " ++ ed.event.title
    body :=
      (match ed.project_name with
       | some p => "项目: " ++ p ++ "\n"
       | none => "") ++
      (if ed.contacts.isEmpty then ""
       else "相关人员: " ++ String.intercalate "、" (ed.contacts.map (fun c => c.name)))
    delivered := ok ed.event.id }

/-- One reminder tick of main.rs reminder_check_task: fetch the pending
reminders, then for each one send the notification (the outcome given by
ok is only logged) and mark the reminder triggered.  Returns the events
table after the tick and the notifications sent. -/
def reminderTick (now : Int) (ok : Int → Bool) (db : RemDB) :
    List Event × List Notification :=
  (fetch_pending_reminders now db).foldl
    (fun acc ed =>
      (mark_reminder_triggered ed.event.id acc.1, acc.2 ++ [composeNotification ok ed]))
    (db.events, [])

/-- Lookup of the row with a given id (SELECT ... WHERE id = ?). -/
def findEvent (i : Int) (events : List Event) : Option Event :=
  events.find? (fun e => e.id == i)

/-! ## Data model of the audit log and summaries (db.rs) -/

/-- Row of the operation_logs table (struct OperationLog in db.rs);
created_at in seconds. -/
structure OperationLog where
  id : Int
  operation_type : String
  entity_type : String
  entity_id : Int
  entity_name : String
  old_value : Option String
  new_value : Option String
  related_entities : Option String
  project_id : Option Int
  project_name : Option String
  description : String
  created_at : Int
deriving Repr, DecidableEq

/-- db.rs fetch_operation_logs: WHERE created_at >= start AND
created_at <= end ORDER BY created_at ASC. -/
def fetch_operation_logs (start_date end_date : Int) (logs : List OperationLog) :
    List OperationLog :=
  List.insertionSort (fun a b => a.created_at ≤ b.created_at)
    (logs.filter (fun l =>
      decide (start_date ≤ l.created_at) && decide (l.created_at ≤ end_date)))

/-- The range predicate of fetch_operation_logs for a [start 00:00:00,
end 23:59:59] day range, in seconds. -/
def logInRange (start_date end_date : Int) (l : OperationLog) : Bool :=
  decide (start_date * 86400 ≤ l.created_at) &&
    decide (l.created_at ≤ end_date * 86400 + 86399)

/-- The structured statistics serialized as JSON by generate_summary. -/
structure Statistics where
  total_operations : Nat
  new_projects : Nat
  new_contacts : Nat
  new_events : Nat
  new_activities : Nat
deriving Repr, DecidableEq, Inhabited

/-- Row of the summaries table (struct Summary in db.rs).  The content
string is modelled as its list of lines; start_date/end_date as day
indices; created_at in seconds.  The rowid is a storage detail never read
by the modelled logic and is omitted. -/
structure Summary where
  title : String
  summary_type : String
  start_date : Int
  end_date : Int
  contentLines : List String
  statistics : Statistics
  is_auto_generated : Bool
  created_at : Int
deriving Repr, DecidableEq, Inhabited

/-- The per-entity-kind predicate of the statistics loop in generate_summary. -/
def isCreateOf (entity : String) (l : OperationLog) : Bool :=
  l.operation_type == "create" && l.entity_type == entity

/-- The content lines pushed before the record list: period header,
generation-time line, and separator. -/
def summaryHeaderLines (start_date end_date now : Int) : List String :=
  ["# " ++ formatDate start_date ++ " 至 " ++ formatDate end_date ++ " 工作总结", "",
   "生成时间：" ++ formatCNSecond now, "", "---", ""]

/-- The operation-record section: a no-activity notice when the fetched
range is empty, otherwise one bullet line per entry description. -/
def summaryRecordLines (fetched : List OperationLog) : List String :=
  if fetched.isEmpty then ["该时间段内没有操作记录。"]
  else ["## 操作记录", ""] ++ fetched.map (fun l => "- " ++ l.description)

/-- The statistics section appended after the record list. -/
def summaryStatLines (fetched : List OperationLog) : List String :=
  ["", "## 统计数据", "",
   "- 总操作数：" ++ toString fetched.length,
   "- 新增项目：" ++ toString (fetched.countP (isCreateOf "project")),
   "- 新增联系人：" ++ toString (fetched.countP (isCreateOf "contact")),
   "- 新增事件：" ++ toString (fetched.countP (isCreateOf "event")),
   "- 新增活动：" ++ toString (fetched.countP (isCreateOf "activity"))]

/-- db.rs generate_summary: fetch the logs of
[start_date 00:00:00, end_date 23:59:59], render title and content,
count creations per entity kind, INSERT the summary row, and return it.
now is the generation wall-clock time. -/
def generate_summary (summary_type : String) (start_date end_date : Int)
    (is_auto : Bool) (now : Int) (logs : List OperationLog)
    (store : List Summary) : Summary × List Summary :=
  let start_datetime := start_date * 86400
  let end_datetime := end_date * 86400 + 86399
  let fetched := fetch_operation_logs start_datetime end_datetime logs
  let title := formatCNMinute now ++ "生成 - " ++ formatDate start_date ++
    " 至 " ++ formatDate end_date ++ " 总结"
  let s : Summary :=
    { title := title
      summary_type := summary_type
      start_date := start_date
      end_date := end_date
      contentLines := summaryHeaderLines start_date end_date now ++
        summaryRecordLines fetched ++ summaryStatLines fetched
      statistics :=
        ⟨fetched.length, fetched.countP (isCreateOf "project"),
         fetched.countP (isCreateOf "contact"), fetched.countP (isCreateOf "event"),
         fetched.countP (isCreateOf "activity")⟩
      is_auto_generated := is_auto
      created_at := now }
  (s, store ++ [s])

/-- SELECT COUNT(*) FROM summaries WHERE summary_type = ? AND start_date = ?. -/
def countForPeriod (store : List Summary) (summary_type : String) (start_date : Int) :
    Nat :=
  (store.filter (fun s =>
    s.summary_type == summary_type && s.start_date == start_date)).length

/-- Per-rule generation outcomes of one check_and_generate_auto_summaries
invocation: whether the fallible generate_summary call of each rule
succeeds (db.rs swallows a failure with if let Ok). -/
structure GenEnv where
  dailyOk : Bool
  weeklyOk : Bool
  monthlyOk : Bool
deriving Repr, DecidableEq

/-- The if let Ok pattern around a fallible generate_summary call: on
success the row is inserted and collected, on failure nothing happens. -/
def tryGenerate (ok : Bool) (summary_type : String) (start_date end_date : Int)
    (now : Int) (logs : List OperationLog) (store : List Summary) :
    List Summary × List Summary :=
  if ok then
    let r := generate_summary summary_type start_date end_date true now logs store
    (r.2, [r.1])
  else (store, [])

/-- Daily block of check_and_generate_auto_summaries: skip when a daily
summary for yesterday exists, otherwise generate one for yesterday. -/
def dailyStep (today : Int) (ok : Bool) (now : Int) (logs : List OperationLog)
    (store : List Summary) : List Summary × List Summary :=
  if countForPeriod store "daily" (today - 1) == 0 then
    tryGenerate ok "daily" (today - 1) (today - 1) now logs store
  else (store, [])

/-- Weekly block: only on Mondays, period today-7 .. today-1, keyed on the
start date. -/
def weeklyStep (today : Int) (ok : Bool) (now : Int) (logs : List OperationLog)
    (store : List Summary) : List Summary × List Summary :=
  if isMonday today && (countForPeriod store "weekly" (today - 7) == 0) then
    tryGenerate ok "weekly" (today - 7) (today - 1) now logs store
  else (store, [])

/-- The start date of the monthly rule: last_month = today - 1 day, then
the first day of last_month's calendar month. -/
def firstOfPrevMonth (today : Int) : Int :=
  let c := civilFromDays (today - 1)
  daysFromCivil c.year c.month 1

/-- Monthly block: only on the first day of a month, period = the previous
calendar month, keyed on its first day. -/
def monthlyStep (today : Int) (ok : Bool) (now : Int) (logs : List OperationLog)
    (store : List Summary) : List Summary × List Summary :=
  if dayOfMonth today == 1 && (countForPeriod store "monthly" (firstOfPrevMonth today) == 0) then
    tryGenerate ok "monthly" (firstOfPrevMonth today) (today - 1) now logs store
  else (store, [])

/-- db.rs check_and_generate_auto_summaries: the three guarded rule blocks
run in sequence on the shared summaries store; returns the store after the
call and the list of summaries generated by it. -/
def check_and_generate_auto_summaries (today : Int) (env : GenEnv) (now : Int)
    (logs : List OperationLog) (store : List Summary) :
    List Summary × List Summary :=
  let d1 := dailyStep today env.dailyOk now logs store
  let d2 := weeklyStep today env.weeklyOk now logs d1.1
  let d3 := monthlyStep today env.monthlyOk now logs d2.1
  (d3.1, d1.2 ++ d2.2 ++ d3.2)

/-! ## Concrete sample data used by witnesses and counterexamples -/

/-- An untriggered event with reminder time 50, strictly inside the window
of a tick at now = 100. -/
def wEvent : Event := ⟨1, "会议", none, "2024-01-01", none, none, some 50, false, "", ""⟩

def wDB : RemDB := ⟨[wEvent], [], [], []⟩

/-- An untriggered event whose reminder time is exactly now - 60 for a tick
at now = 100. -/
def ceEvent : Event := ⟨1, "会议", none, "2024-01-01", none, none, some 40, false, "", ""⟩

def ceDB : RemDB := ⟨[ceEvent], [], [], []⟩

/-- An event whose reminder already fired (triggered = true), with stored
reminder time 40. -/
def c6Event : Event := ⟨1, "会议", none, "2024-01-01", none, none, some 40, true, "", ""⟩

def c10DB : RemDB := ⟨[c6Event], [], [], []⟩

/-- Day index of 2024-01-01, the date of the spec's summary example. -/
def specDay : Int := daysFromCivil 2024 1 1

/-- The spec's summary example: exactly 3 create entries dated 2024-01-01,
2 of entity kind event and 1 of entity kind project. -/
def specLogs : List OperationLog :=
  [⟨1, "create", "event", 11, "a", none, none, none, none, none, "e1", specDay * 86400 + 10⟩,
   ⟨2, "create", "project", 12, "b", none, none, none, none, none, "p1", specDay * 86400 + 5⟩,
   ⟨3, "create", "event", 13, "c", none, none, none, none, none, "e2", specDay * 86400 + 20⟩]

/-- A pre-existing daily summary for day 0, used to exhibit a duplicate
period in the manual-generation witness. -/
def wSummary : Summary := ⟨"旧总结", "daily", 0, 0, [], ⟨0, 0, 0, 0, 0⟩, false, 0⟩

/-! ## Helper lemmas about the reminder tick -/

/-- Number of notifications sent for the event with id i. -/
def notifCountFor (ns : List Notification) (i : Int) : Nat :=
  (ns.filter (fun n => n.eventId == i)).length

/-- Cumulative effect on one row of marking every id in ids. -/
def applyMarks (ids : List Int) (e : Event) : Event :=
  if e.id ∈ ids then { e with reminder_triggered := true } else e

/-- Marking a list of event ids in sequence. -/
def markAll (ids : List Int) (es : List Event) : List Event :=
  ids.foldl (fun s j => mark_reminder_triggered j s) es

lemma applyMarks_id (ids : List Int) (e : Event) : (applyMarks ids e).id = e.id := by
  unfold applyMarks; split <;> rfl

lemma markAll_cons (j : Int) (ids : List Int) (es : List Event) :
    markAll (j :: ids) es = markAll ids (mark_reminder_triggered j es) := rfl

lemma applyMarks_step (j : Int) (ids : List Int) (e : Event) :
    applyMarks ids (if e.id = j then { e with reminder_triggered := true } else e) =
      applyMarks (j :: ids) e := by
  by_cases h : e.id = j
  · simp only [applyMarks, if_pos h, h, List.mem_cons, true_or, if_true]
    split <;> rfl
  · simp only [applyMarks, if_neg h, List.mem_cons]
    by_cases h2 : e.id ∈ ids
    · simp [h2]
    · simp [h2, h]

lemma markAll_eq_map (ids : List Int) (es : List Event) :
    markAll ids es = es.map (applyMarks ids) := by
  induction ids generalizing es with
  | nil =>
      have h : es.map (applyMarks []) = es.map (fun e => e) :=
        List.map_congr_left (fun a _ => by simp [applyMarks])
      simp [markAll, h]
  | cons j ids ih =>
      rw [markAll_cons, ih, mark_reminder_triggered, List.map_map]
      apply List.map_congr_left
      intro a _
      exact applyMarks_step j ids a

lemma reminderTick_eq (now : Int) (ok : Int → Bool) (db : RemDB) :
    reminderTick now ok db =
      (markAll ((db.events.filter (reminderDue now)).map (fun e => e.id)) db.events,
       (fetch_pending_reminders now db).map (composeNotification ok)) := by
  have key : ∀ (pds : List EventWithDetails) (es : List Event) (ns : List Notification),
      pds.foldl (fun acc ed =>
          (mark_reminder_triggered ed.event.id acc.1, acc.2 ++ [composeNotification ok ed]))
        (es, ns) =
      (markAll (pds.map (fun ed => ed.event.id)) es, ns ++ pds.map (composeNotification ok)) := by
    intro pds
    induction pds with
    | nil => intro es ns; simp [markAll]
    | cons a tl ih =>
        intro es ns
        simp only [List.foldl_cons, List.map_cons, markAll_cons]
        rw [ih]
        simp
  unfold reminderTick
  rw [key]
  unfold fetch_pending_reminders
  rw [List.map_map, List.nil_append]
  rfl

lemma tick_events (now : Int) (ok : Int → Bool) (db : RemDB) :
    (reminderTick now ok db).1 =
      db.events.map (applyMarks ((db.events.filter (reminderDue now)).map (fun e => e.id))) := by
  rw [reminderTick_eq, markAll_eq_map]

lemma tick_notifs (now : Int) (ok : Int → Bool) (db : RemDB) :
    (reminderTick now ok db).2 =
      (fetch_pending_reminders now db).map (composeNotification ok) := by
  rw [reminderTick_eq]

lemma findEvent_map (f : Event → Event) (hf : ∀ e, (f e).id = e.id) (i : Int)
    (es : List Event) : findEvent i (es.map f) = (findEvent i es).map f := by
  have hfn : ((fun e : Event => e.id == i) ∘ f) = (fun e : Event => e.id == i) := by
    funext e
    simp [Function.comp, hf]
  unfold findEvent
  rw [List.find?_map, hfn]

lemma findEvent_eq_some_of_nodup :
    ∀ (es : List Event) (e : Event), (es.map (fun x => x.id)).Nodup → e ∈ es →
      findEvent e.id es = some e := by
  intro es
  induction es with
  | nil => intro e _ h; cases h
  | cons a tl ih =>
      intro e hnd hmem
      simp only [List.map_cons, List.nodup_cons] at hnd
      rcases List.mem_cons.mp hmem with rfl | hmem2
      · exact List.find?_cons_of_pos _ (by simp)
      · have hne : (a.id == e.id) = false := by
          refine beq_eq_false_iff_ne.mpr ?_
          intro h
          exact hnd.1 (h ▸ List.mem_map_of_mem (fun x => x.id) hmem2)
        unfold findEvent
        rw [List.find?_cons_of_neg _ (by simp [hne])]
        exact ih e hnd.2 hmem2

lemma countP_id_eq_one (p : Event → Bool) :
    ∀ (es : List Event) (e : Event), (es.map (fun x => x.id)).Nodup → e ∈ es → p e = true →
      List.countP (fun x => x.id == e.id) (es.filter p) = 1 := by
  intro es
  induction es with
  | nil => intro e _ h _; cases h
  | cons a tl ih =>
      intro e hnd hmem hp
      simp only [List.map_cons, List.nodup_cons] at hnd
      rcases List.mem_cons.mp hmem with heq | hmem2
      · rw [List.filter_cons_of_pos (heq ▸ hp), List.countP_cons_of_pos _ _ (by simp [heq])]
        have hz : List.countP (fun x => x.id == e.id) (tl.filter p) = 0 := by
          rw [List.countP_eq_zero]
          intro x hx
          simp only [beq_iff_eq]
          intro hxa
          refine hnd.1 ?_
          rw [← heq, ← hxa]
          exact List.mem_map_of_mem (fun x => x.id) (List.mem_filter.mp hx).1
        rw [hz]
      · have hne : (a.id == e.id) = false := by
          refine beq_eq_false_iff_ne.mpr ?_
          intro h
          exact hnd.1 (h ▸ List.mem_map_of_mem (fun x => x.id) hmem2)
        by_cases hpa : p a = true
        · rw [List.filter_cons_of_pos hpa, List.countP_cons_of_neg _ _ (by simp [hne])]
          exact ih e hnd.2 hmem2 hp
        · rw [List.filter_cons_of_neg (by simpa using hpa)]
          exact ih e hnd.2 hmem2 hp

lemma map_id_preserved (f : Event → Event) (hf : ∀ e, (f e).id = e.id) (es : List Event) :
    (es.map f).map (fun x => x.id) = es.map (fun x => x.id) := by
  rw [List.map_map]
  apply List.map_congr_left
  intro a _
  exact hf a

/-- A tick delivers exactly one notification for a due, untriggered event
and marks its row triggered. -/
lemma tick_hits (now : Int) (ok : Int → Bool) (db : RemDB) (e : Event)
    (hnd : (db.events.map (fun x => x.id)).Nodup) (hmem : e ∈ db.events)
    (hdue : reminderDue now e = true) :
    notifCountFor (reminderTick now ok db).2 e.id = 1 ∧
    findEvent e.id (reminderTick now ok db).1 =
      some { e with reminder_triggered := true } := by
  have hpend : e ∈ db.events.filter (reminderDue now) := List.mem_filter.mpr ⟨hmem, hdue⟩
  constructor
  · rw [notifCountFor, ← List.countP_eq_length_filter, tick_notifs]
    unfold fetch_pending_reminders
    rw [List.countP_map, List.countP_map]
    exact countP_id_eq_one (reminderDue now) db.events e hnd hmem hdue
  · rw [tick_events, findEvent_map _ (applyMarks_id _),
        findEvent_eq_some_of_nodup db.events e hnd hmem]
    have hids : e.id ∈ (db.events.filter (reminderDue now)).map (fun x => x.id) :=
      List.mem_map_of_mem (fun x => x.id) hpend
    simp [applyMarks, hids]

/-- A tick neither fetches, nor notifies for, nor touches the row of an
event that is not due. -/
lemma tick_skips (now : Int) (ok : Int → Bool) (db : RemDB) (e : Event)
    (hnd : (db.events.map (fun x => x.id)).Nodup) (hmem : e ∈ db.events)
    (hnotdue : reminderDue now e = false) :
    (fetch_pending_reminders now db).all (fun ed => ed.event.id != e.id) = true ∧
    notifCountFor (reminderTick now ok db).2 e.id = 0 ∧
    findEvent e.id (reminderTick now ok db).1 = some e := by
  have hkey : ∀ x ∈ db.events.filter (reminderDue now), x.id ≠ e.id := by
    intro x hx hxe
    have hx2 := List.mem_filter.mp hx
    have : x = e := List.inj_on_of_nodup_map hnd hx2.1 hmem hxe
    rw [this, hnotdue] at hx2
    exact Bool.false_ne_true hx2.2
  refine ⟨?_, ?_, ?_⟩
  · rw [List.all_eq_true]
    intro ed hed
    unfold fetch_pending_reminders at hed
    rcases List.mem_map.mp hed with ⟨x, hx, rfl⟩
    simpa using hkey x hx
  · rw [notifCountFor, ← List.countP_eq_length_filter, tick_notifs]
    unfold fetch_pending_reminders
    rw [List.countP_map, List.countP_map, List.countP_eq_zero]
    intro x hx
    simpa using hkey x hx
  · rw [tick_events, findEvent_map _ (applyMarks_id _),
        findEvent_eq_some_of_nodup db.events e hnd hmem]
    have hnids : e.id ∉ (db.events.filter (reminderDue now)).map (fun x => x.id) := by
      intro h
      rcases List.mem_map.mp h with ⟨x, hx, hxe⟩
      exact hkey x hx hxe
    simp [applyMarks, hnids]

/-! ## Claim theorems: reminder subsystem -/

/-- Claim C1: for every event whose reminder_time is non-null, lies inside
the window (now-60, now], and whose triggered flag is false, one tick
(fetch_pending_reminders followed by the delivery loop) delivers exactly
one notification for that event and sets reminder_triggered to true; an
immediate second tick at the same now does not return the event from
fetch_pending_reminders, delivers nothing for it, and leaves its row
unchanged. -/
theorem C1_at_most_once_delivery (now : Int) (ok1 ok2 : Int → Bool) (db : RemDB)
    (e : Event) (t : Int)
    (hnd : (db.events.map (fun x => x.id)).Nodup)
    (hmem : e ∈ db.events) (ht : e.reminder_time = some t)
    (h1 : now - 60 < t) (h2 : t ≤ now) (htr : e.reminder_triggered = false) :
    notifCountFor (reminderTick now ok1 db).2 e.id = 1 ∧
    findEvent e.id (reminderTick now ok1 db).1 =
      some { e with reminder_triggered := true } ∧
    (fetch_pending_reminders now { db with events := (reminderTick now ok1 db).1 }).all
      (fun ed => ed.event.id != e.id) = true ∧
    notifCountFor
      (reminderTick now ok2 { db with events := (reminderTick now ok1 db).1 }).2 e.id = 0 ∧
    findEvent e.id
      (reminderTick now ok2 { db with events := (reminderTick now ok1 db).1 }).1 =
      some { e with reminder_triggered := true } := by
  have hdue : reminderDue now e = true := by
    simp [reminderDue, ht, htr]
    omega
  have hfirst := tick_hits now ok1 db e hnd hmem hdue
  have e2def : applyMarks ((db.events.filter (reminderDue now)).map (fun x => x.id)) e
      = { e with reminder_triggered := true } := by
    have hids : e.id ∈ (db.events.filter (reminderDue now)).map (fun x => x.id) :=
      List.mem_map_of_mem (fun x => x.id) (List.mem_filter.mpr ⟨hmem, hdue⟩)
    simp [applyMarks, hids]
  have hmem1 : ({ e with reminder_triggered := true } : Event) ∈
      (reminderTick now ok1 db).1 := by
    rw [tick_events, ← e2def]
    exact List.mem_map_of_mem _ hmem
  have hnd1 : ((reminderTick now ok1 db).1.map (fun x => x.id)).Nodup := by
    rw [tick_events, map_id_preserved _ (applyMarks_id _)]
    exact hnd
  have hnotdue : reminderDue now ({ e with reminder_triggered := true } : Event) = false := by
    simp [reminderDue, ht]
  have hsecond := tick_skips now ok2 { db with events := (reminderTick now ok1 db).1 }
      { e with reminder_triggered := true } hnd1 hmem1 hnotdue
  exact ⟨hfirst.1, hfirst.2, hsecond.1, hsecond.2.1, hsecond.2.2⟩

theorem C1_witness :
    wEvent ∈ wDB.events ∧ wEvent.reminder_time = some 50 ∧
    (100 : Int) - 60 < 50 ∧ (50 : Int) ≤ 100 ∧ wEvent.reminder_triggered = false ∧
    notifCountFor (reminderTick 100 (fun _ => true) wDB).2 wEvent.id = 1 :=
  ⟨by decide, by decide, by decide, by decide, by decide,
   (C1_at_most_once_delivery 100 (fun _ => true) (fun _ => true) wDB wEvent 50
      (by decide) (by decide) (by decide) (by decide) (by decide) (by decide)).1⟩

/-- Claim C2 (amended): the due window of a tick is the CLOSED interval
[now-60, now]: an event with reminder timestamp strictly before now-60 or
strictly after now is neither fetched, nor delivered for, nor marked, while
an untriggered event whose timestamp equals exactly now-60 IS inside the
window (the SQL uses reminder_time >= now-60, an inclusive bound). -/
theorem C2_closed_window (now : Int) (ok : Int → Bool) (db : RemDB) (e : Event) (t : Int)
    (hnd : (db.events.map (fun x => x.id)).Nodup)
    (hmem : e ∈ db.events) (ht : e.reminder_time = some t) :
    ((t < now - 60 ∨ now < t) →
      (fetch_pending_reminders now db).all (fun ed => ed.event.id != e.id) = true ∧
      notifCountFor (reminderTick now ok db).2 e.id = 0 ∧
      findEvent e.id (reminderTick now ok db).1 = some e) ∧
    (t = now - 60 → e.reminder_triggered = false →
      ∃ ed ∈ fetch_pending_reminders now db, ed.event = e) := by
  constructor
  · intro hout
    have hnotdue : reminderDue now e = false := by
      rcases hout with h | h
      · have hn : ¬ (now - 60 ≤ t) := by omega
        simp [reminderDue, ht, hn]
      · have hn : ¬ (t ≤ now) := by omega
        simp [reminderDue, ht, hn]
    exact tick_skips now ok db e hnd hmem hnotdue
  · intro heq htr
    have hdue : reminderDue now e = true := by
      simp [reminderDue, ht, htr]
      omega
    exact ⟨_, List.mem_map_of_mem _ (List.mem_filter.mpr ⟨hmem, hdue⟩), rfl⟩

theorem C2_witness :
    ceDB.events.map (fun x => x.id) = [1] ∧ ceEvent.reminder_time = some 40 ∧
    ((35 : Int) < 100 - 60 ∨ (100 : Int) < 35) ∧
    (∃ ed ∈ fetch_pending_reminders 100 ceDB, ed.event = ceEvent) :=
  ⟨by decide, by decide, by decide,
   (C2_closed_window 100 (fun _ => true) ceDB ceEvent 40
      (by decide) (by decide) (by decide)).2 (by decide) (by decide)⟩

/-- Claim C2 counterexample: an untriggered event whose reminder timestamp
equals exactly now-60 (here 40 at now = 100) is returned by
fetch_pending_reminders, receives a notification, and is marked triggered —
it is NOT excluded from the window as the claim states. -/
theorem C2_counterexample :
    ceEvent.reminder_time = some (100 - 60) ∧
    (∃ ed ∈ fetch_pending_reminders 100 ceDB, ed.event = ceEvent) ∧
    notifCountFor (reminderTick 100 (fun _ => true) ceDB).2 1 = 1 ∧
    findEvent 1 (reminderTick 100 (fun _ => true) ceDB).1 =
      some { ceEvent with reminder_triggered := true } := by
  decide

/-- Claim C5: the events store after a tick does not depend on the delivery
outcomes at all; every due reminder's event gets exactly one delivery
attempt, whose (possibly failed) outcome is only recorded, and its row is
marked triggered regardless. -/
theorem C5_mark_regardless_of_delivery (now : Int) (ok ok2 : Int → Bool) (db : RemDB)
    (e : Event)
    (hnd : (db.events.map (fun x => x.id)).Nodup) (hmem : e ∈ db.events)
    (hdue : reminderDue now e = true) :
    (reminderTick now ok db).1 = (reminderTick now ok2 db).1 ∧
    (∃ n ∈ (reminderTick now ok db).2, n.eventId = e.id ∧ n.delivered = ok e.id) ∧
    findEvent e.id (reminderTick now ok db).1 =
      some { e with reminder_triggered := true } := by
  refine ⟨by rw [tick_events, tick_events], ?_, (tick_hits now ok db e hnd hmem hdue).2⟩
  rw [tick_notifs]
  refine ⟨composeNotification ok
    { event := e, contacts := fetch_contacts_for_event db e.id,
      project_name := e.project_id.bind (lookupProjectName db.projects) }, ?_, rfl, rfl⟩
  apply List.mem_map_of_mem
  unfold fetch_pending_reminders
  exact List.mem_map_of_mem _ (List.mem_filter.mpr ⟨hmem, hdue⟩)

theorem C5_witness :
    wEvent ∈ wDB.events ∧ reminderDue 100 wEvent = true ∧
    findEvent wEvent.id (reminderTick 100 (fun _ => false) wDB).1 =
      some { wEvent with reminder_triggered := true } :=
  ⟨by decide, by decide,
   (C5_mark_regardless_of_delivery 100 (fun _ => false) (fun _ => true) wDB wEvent
      (by decide) (by decide) (by decide)).2.2⟩

/-- Claim C6 (code-bug evidence): update_event called with the reminder
time UNCHANGED (some 40 equals the stored value) still resets
reminder_triggered from true to false, so the flag does not stay true until
a new reminder timestamp is set, contradicting the invariant (and the
code's own comment, which scopes the reset to a changed reminder time). -/
theorem C6_flag_reset_without_new_timestamp :
    c6Event.reminder_triggered = true ∧
    c6Event.reminder_time = some 40 ∧
    findEvent 1 (update_event 1 "会议" none "2024-01-01" none none (some 40) [c6Event]) =
      some { c6Event with reminder_triggered := false } := by
  decide

/-- Claim C10: update_event resets reminder_triggered to false even when
the reminder_time passed in is identical to the stored one, so any edit of
an already-reminded event re-arms its reminder; if the unchanged timestamp
falls inside a later tick's window, a second notification is delivered for
the same reminder-timestamp value. -/
theorem C10_update_event_rearms (db : RemDB) (e : Event) (t now2 : Int) (ok : Int → Bool)
    (title : String) (descr : Option String) (date : String)
    (pid : Option Int) (ety : Option String)
    (hnd : (db.events.map (fun x => x.id)).Nodup)
    (hmem : e ∈ db.events) (ht : e.reminder_time = some t)
    (htr : e.reminder_triggered = true) :
    findEvent e.id (update_event e.id title descr date pid ety (some t) db.events) =
      some { e with title := title, description := descr, event_date := date,
                    project_id := pid, event_type := ety, reminder_time := some t,
                    reminder_triggered := false } ∧
    (now2 - 60 ≤ t → t ≤ now2 →
      notifCountFor
        (reminderTick now2 ok
          { db with events := update_event e.id title descr date pid ety (some t) db.events }).2
        e.id = 1) := by
  have hpres : ∀ x : Event,
      ((if x.id = e.id then
          ({ x with title := title, description := descr, event_date := date,
                    project_id := pid, event_type := ety, reminder_time := some t,
                    reminder_triggered := false } : Event)
        else x)).id = x.id := by
    intro x
    split <;> simp_all
  constructor
  · unfold update_event
    rw [findEvent_map _ hpres, findEvent_eq_some_of_nodup db.events e hnd hmem]
    simp
  · intro hb1 hb2
    have hnd2 : ((update_event e.id title descr date pid ety (some t) db.events).map
        (fun x => x.id)).Nodup := by
      unfold update_event
      rw [map_id_preserved _ hpres]
      exact hnd
    have hmem2 : ({ e with title := title, description := descr, event_date := date, project_id := pid, event_type := ety, reminder_time := some t, reminder_triggered := false } : Event) ∈ update_event e.id title descr date pid ety (some t) db.events := by
      unfold update_event
      have := List.mem_map_of_mem (fun x : Event => if x.id = e.id then ({ x with title := title, description := descr, event_date := date, project_id := pid, event_type := ety, reminder_time := some t, reminder_triggered := false } : Event) else x) hmem
      simpa using this
    have hdue2 : reminderDue now2 ({ e with title := title, description := descr, event_date := date, project_id := pid, event_type := ety, reminder_time := some t, reminder_triggered := false } : Event) = true := by
      simp [reminderDue]
      omega
    exact (tick_hits now2 ok
      { db with events := update_event e.id title descr date pid ety (some t) db.events }
      { e with title := title, description := descr, event_date := date,
               project_id := pid, event_type := ety, reminder_time := some t,
               reminder_triggered := false } hnd2 hmem2 hdue2).1

/-! ## Helper lemmas about summaries -/

instance logLeTotal : IsTotal OperationLog (fun a b => a.created_at ≤ b.created_at) :=
  ⟨fun a b => le_total a.created_at b.created_at⟩

instance logLeTrans : IsTrans OperationLog (fun a b => a.created_at ≤ b.created_at) :=
  ⟨fun _ _ _ h1 h2 => le_trans h1 h2⟩

lemma generate_summary_snd (t : String) (sd ed : Int) (a : Bool) (now : Int)
    (logs : List OperationLog) (st : List Summary) :
    (generate_summary t sd ed a now logs st).2 =
      st ++ [(generate_summary t sd ed a now logs st).1] := rfl

lemma gs_type (t : String) (sd ed : Int) (a : Bool) (now : Int)
    (logs : List OperationLog) (st : List Summary) :
    (generate_summary t sd ed a now logs st).1.summary_type = t := rfl

lemma gs_start (t : String) (sd ed : Int) (a : Bool) (now : Int)
    (logs : List OperationLog) (st : List Summary) :
    (generate_summary t sd ed a now logs st).1.start_date = sd := rfl

lemma gs_end (t : String) (sd ed : Int) (a : Bool) (now : Int)
    (logs : List OperationLog) (st : List Summary) :
    (generate_summary t sd ed a now logs st).1.end_date = ed := rfl

lemma gs_auto (t : String) (sd ed : Int) (a : Bool) (now : Int)
    (logs : List OperationLog) (st : List Summary) :
    (generate_summary t sd ed a now logs st).1.is_auto_generated = a := rfl

lemma gs_fst_store_indep (t : String) (sd ed : Int) (a : Bool) (now : Int)
    (logs : List OperationLog) (st st2 : List Summary) :
    (generate_summary t sd ed a now logs st).1 =
      (generate_summary t sd ed a now logs st2).1 := rfl

lemma countForPeriod_append (st g : List Summary) (t : String) (d : Int) :
    countForPeriod (st ++ g) t d = countForPeriod st t d + countForPeriod g t d := by
  simp [countForPeriod, List.filter_append]

lemma countForPeriod_eq_zero_of_types {g : List Summary} {t : String}
    (h : ∀ s ∈ g, s.summary_type ≠ t) (d : Int) : countForPeriod g t d = 0 := by
  have hnil : g.filter (fun s => s.summary_type == t && s.start_date == d) = [] := by
    rw [List.filter_eq_nil_iff]
    intro s hs
    simp [h s hs]
  simp [countForPeriod, hnil]

lemma filter_type_ne_nil {g : List Summary} {t : String}
    (htypes : ∀ s ∈ g, s.summary_type = t) :
    g.filter (fun s => s.summary_type != t) = [] := by
  rw [List.filter_eq_nil_iff]
  intro s hs
  simp [htypes s hs]

lemma tryGenerate_fst (ok : Bool) (t : String) (sd ed : Int) (now : Int)
    (logs : List OperationLog) (st : List Summary) :
    (tryGenerate ok t sd ed now logs st).1 = st ++ (tryGenerate ok t sd ed now logs st).2 := by
  by_cases hok : ok = true
  · simp only [tryGenerate, if_pos hok]
    rfl
  · simp [tryGenerate, hok]

lemma tryGenerate_snd_store (ok : Bool) (t : String) (sd ed : Int) (now : Int)
    (logs : List OperationLog) (st st2 : List Summary) :
    (tryGenerate ok t sd ed now logs st).2 = (tryGenerate ok t sd ed now logs st2).2 := by
  by_cases hok : ok = true
  · simp only [tryGenerate, if_pos hok]
    rw [gs_fst_store_indep t sd ed true now logs st st2]
  · simp [tryGenerate, hok]

lemma mem_tryGenerate {s : Summary} (ok : Bool) (t : String) (sd ed : Int) (now : Int)
    (logs : List OperationLog) (st : List Summary)
    (h : s ∈ (tryGenerate ok t sd ed now logs st).2) :
    s.summary_type = t ∧ s.start_date = sd ∧ s.end_date = ed ∧
    s.is_auto_generated = true := by
  by_cases hok : ok = true
  · simp only [tryGenerate, if_pos hok, List.mem_singleton] at h
    subst h
    exact ⟨rfl, rfl, rfl, rfl⟩
  · simp [tryGenerate, hok] at h

lemma dailyStep_fst (today : Int) (ok : Bool) (now : Int) (logs : List OperationLog)
    (st : List Summary) :
    (dailyStep today ok now logs st).1 = st ++ (dailyStep today ok now logs st).2 := by
  unfold dailyStep
  by_cases hc : (countForPeriod st "daily" (today - 1) == 0) = true
  · rw [if_pos hc]
    exact tryGenerate_fst ok "daily" (today - 1) (today - 1) now logs st
  · rw [if_neg hc]
    simp

lemma weeklyStep_fst (today : Int) (ok : Bool) (now : Int) (logs : List OperationLog)
    (st : List Summary) :
    (weeklyStep today ok now logs st).1 = st ++ (weeklyStep today ok now logs st).2 := by
  unfold weeklyStep
  by_cases hc : (isMonday today && (countForPeriod st "weekly" (today - 7) == 0)) = true
  · rw [if_pos hc]
    exact tryGenerate_fst ok "weekly" (today - 7) (today - 1) now logs st
  · rw [if_neg hc]
    simp

lemma monthlyStep_fst (today : Int) (ok : Bool) (now : Int) (logs : List OperationLog)
    (st : List Summary) :
    (monthlyStep today ok now logs st).1 = st ++ (monthlyStep today ok now logs st).2 := by
  unfold monthlyStep
  by_cases hc : (dayOfMonth today == 1 &&
      (countForPeriod st "monthly" (firstOfPrevMonth today) == 0)) = true
  · rw [if_pos hc]
    exact tryGenerate_fst ok "monthly" (firstOfPrevMonth today) (today - 1) now logs st
  · rw [if_neg hc]
    simp

lemma mem_dailyStep {s : Summary} (today : Int) (ok : Bool) (now : Int)
    (logs : List OperationLog) (st : List Summary)
    (h : s ∈ (dailyStep today ok now logs st).2) :
    s.summary_type = "daily" ∧ s.start_date = today - 1 ∧ s.end_date = today - 1 := by
  unfold dailyStep at h
  by_cases hc : (countForPeriod st "daily" (today - 1) == 0) = true
  · rw [if_pos hc] at h
    have := mem_tryGenerate ok "daily" (today - 1) (today - 1) now logs st h
    exact ⟨this.1, this.2.1, this.2.2.1⟩
  · rw [if_neg hc] at h
    simp at h

lemma mem_weeklyStep {s : Summary} (today : Int) (ok : Bool) (now : Int)
    (logs : List OperationLog) (st : List Summary)
    (h : s ∈ (weeklyStep today ok now logs st).2) :
    isMonday today = true ∧ s.summary_type = "weekly" ∧
    s.start_date = today - 7 ∧ s.end_date = today - 1 := by
  unfold weeklyStep at h
  by_cases hc : (isMonday today && (countForPeriod st "weekly" (today - 7) == 0)) = true
  · rw [if_pos hc] at h
    have hf := mem_tryGenerate ok "weekly" (today - 7) (today - 1) now logs st h
    exact ⟨(Bool.and_eq_true_iff.mp hc).1, hf.1, hf.2.1, hf.2.2.1⟩
  · rw [if_neg hc] at h
    simp at h

lemma mem_monthlyStep {s : Summary} (today : Int) (ok : Bool) (now : Int)
    (logs : List OperationLog) (st : List Summary)
    (h : s ∈ (monthlyStep today ok now logs st).2) :
    dayOfMonth today = 1 ∧ s.summary_type = "monthly" ∧
    s.start_date = firstOfPrevMonth today ∧ s.end_date = today - 1 := by
  unfold monthlyStep at h
  by_cases hc : (dayOfMonth today == 1 &&
      (countForPeriod st "monthly" (firstOfPrevMonth today) == 0)) = true
  · rw [if_pos hc] at h
    have hf := mem_tryGenerate ok "monthly" (firstOfPrevMonth today) (today - 1) now logs st h
    refine ⟨?_, hf.1, hf.2.1, hf.2.2.1⟩
    have := (Bool.and_eq_true_iff.mp hc).1
    simpa using this
  · rw [if_neg hc] at h
    simp at h

lemma countForPeriod_dailyStep_ne (today : Int) (ok : Bool) (now : Int)
    (logs : List OperationLog) (st : List Summary) {t : String} (ht : t ≠ "daily")
    (d : Int) :
    countForPeriod (dailyStep today ok now logs st).1 t d = countForPeriod st t d := by
  have hz : countForPeriod (dailyStep today ok now logs st).2 t d = 0 :=
    countForPeriod_eq_zero_of_types
      (fun s hs => by
        rw [(mem_dailyStep today ok now logs st hs).1]
        exact fun h => ht h.symm) d
  rw [dailyStep_fst, countForPeriod_append, hz]
  simp

lemma countForPeriod_weeklyStep_ne (today : Int) (ok : Bool) (now : Int)
    (logs : List OperationLog) (st : List Summary) {t : String} (ht : t ≠ "weekly")
    (d : Int) :
    countForPeriod (weeklyStep today ok now logs st).1 t d = countForPeriod st t d := by
  have hz : countForPeriod (weeklyStep today ok now logs st).2 t d = 0 :=
    countForPeriod_eq_zero_of_types
      (fun s hs => by
        rw [(mem_weeklyStep today ok now logs st hs).2.1]
        exact fun h => ht h.symm) d
  rw [weeklyStep_fst, countForPeriod_append, hz]
  simp

lemma countForPeriod_monthlyStep_ne (today : Int) (ok : Bool) (now : Int)
    (logs : List OperationLog) (st : List Summary) {t : String} (ht : t ≠ "monthly")
    (d : Int) :
    countForPeriod (monthlyStep today ok now logs st).1 t d = countForPeriod st t d := by
  have hz : countForPeriod (monthlyStep today ok now logs st).2 t d = 0 :=
    countForPeriod_eq_zero_of_types
      (fun s hs => by
        rw [(mem_monthlyStep today ok now logs st hs).2.1]
        exact fun h => ht h.symm) d
  rw [monthlyStep_fst, countForPeriod_append, hz]
  simp

lemma weeklyStep_snd_congr (today : Int) (ok : Bool) (now : Int)
    (logs : List OperationLog) {st st2 : List Summary}
    (h : countForPeriod st "weekly" (today - 7) = countForPeriod st2 "weekly" (today - 7)) :
    (weeklyStep today ok now logs st).2 = (weeklyStep today ok now logs st2).2 := by
  unfold weeklyStep
  rw [h]
  by_cases hc : (isMonday today && (countForPeriod st2 "weekly" (today - 7) == 0)) = true
  · rw [if_pos hc, if_pos hc]
    exact tryGenerate_snd_store ok "weekly" (today - 7) (today - 1) now logs st st2
  · rw [if_neg hc, if_neg hc]

lemma monthlyStep_snd_congr (today : Int) (ok : Bool) (now : Int)
    (logs : List OperationLog) {st st2 : List Summary}
    (h : countForPeriod st "monthly" (firstOfPrevMonth today) =
      countForPeriod st2 "monthly" (firstOfPrevMonth today)) :
    (monthlyStep today ok now logs st).2 = (monthlyStep today ok now logs st2).2 := by
  unfold monthlyStep
  rw [h]
  by_cases hc : (dayOfMonth today == 1 &&
      (countForPeriod st2 "monthly" (firstOfPrevMonth today) == 0)) = true
  · rw [if_pos hc, if_pos hc]
    exact tryGenerate_snd_store ok "monthly" (firstOfPrevMonth today) (today - 1) now logs st st2
  · rw [if_neg hc, if_neg hc]

lemma check_snd (today : Int) (env : GenEnv) (now : Int) (logs : List OperationLog)
    (store : List Summary) :
    (check_and_generate_auto_summaries today env now logs store).2 =
      (dailyStep today env.dailyOk now logs store).2 ++
      (weeklyStep today env.weeklyOk now logs
        (dailyStep today env.dailyOk now logs store).1).2 ++
      (monthlyStep today env.monthlyOk now logs
        (weeklyStep today env.weeklyOk now logs
          (dailyStep today env.dailyOk now logs store).1).1).2 := rfl

lemma check_fst (today : Int) (env : GenEnv) (now : Int) (logs : List OperationLog)
    (store : List Summary) :
    (check_and_generate_auto_summaries today env now logs store).1 =
      (monthlyStep today env.monthlyOk now logs
        (weeklyStep today env.weeklyOk now logs
          (dailyStep today env.dailyOk now logs store).1).1).1 := rfl

/-- The count of (daily, d) summaries after one automatic check: it grows by
one exactly when the daily rule fired for d = today - 1, and is otherwise
unchanged. -/
lemma countForPeriod_daily_check (today : Int) (env : GenEnv) (now : Int)
    (logs : List OperationLog) (st : List Summary) (d : Int) :
    countForPeriod (check_and_generate_auto_summaries today env now logs st).1 "daily" d =
      countForPeriod st "daily" d +
        (if countForPeriod st "daily" (today - 1) = 0 ∧ env.dailyOk = true ∧ d = today - 1
         then 1 else 0) := by
  rw [check_fst,
      countForPeriod_monthlyStep_ne _ _ _ _ _ (by decide),
      countForPeriod_weeklyStep_ne _ _ _ _ _ (by decide)]
  unfold dailyStep
  by_cases h0 : (countForPeriod st "daily" (today - 1) == 0) = true
  · rw [if_pos h0]
    have h0' : countForPeriod st "daily" (today - 1) = 0 := by simpa using h0
    by_cases hok : env.dailyOk = true
    · unfold tryGenerate
      rw [if_pos hok]
      show countForPeriod
        (st ++ [(generate_summary "daily" (today - 1) (today - 1) true now logs st).1])
        "daily" d = _
      rw [countForPeriod_append]
      congr 1
      by_cases hd : d = today - 1
      · subst hd
        rw [if_pos ⟨h0', hok, rfl⟩]
        simp [countForPeriod, gs_type, gs_start]
      · have hne : ¬ (countForPeriod st "daily" (today - 1) = 0 ∧ env.dailyOk = true ∧
            d = today - 1) := fun hcon => hd hcon.2.2
        rw [if_neg hne]
        simp [countForPeriod, gs_type, gs_start, Ne.symm hd]
    · unfold tryGenerate
      rw [if_neg hok]
      simp [hok]
  · rw [if_neg h0]
    have h0' : ¬ countForPeriod st "daily" (today - 1) = 0 := by simpa using h0
    simp [h0']

/-- One automatic check keeps the (daily, yesterday) summary count at most
one when it was at most one before. -/
lemma check_daily_le (today : Int) (env : GenEnv) (now : Int)
    (logs : List OperationLog) (st : List Summary)
    (h : countForPeriod st "daily" (today - 1) ≤ 1) :
    countForPeriod (check_and_generate_auto_summaries today env now logs st).1
      "daily" (today - 1) ≤ 1 := by
  rw [countForPeriod_daily_check]
  split_ifs with hc
  · omega
  · omega

theorem C10_witness :
    c6Event ∈ c10DB.events ∧ c6Event.reminder_time = some 40 ∧
    c6Event.reminder_triggered = true ∧
    notifCountFor
      (reminderTick 100 (fun _ => true)
        { c10DB with
          events := update_event 1 "会议" none "2024-01-01" none none (some 40) c10DB.events }).2
      1 = 1 :=
  ⟨by decide, by decide, by decide,
   (C10_update_event_rearms c10DB c6Event 40 100 (fun _ => true) "会议" none "2024-01-01"
      none none (by decide) (by decide) (by decide) (by decide)).2 (by decide) (by decide)⟩

/-! ## Claim theorems: summaries -/

/-- Claim C3: generate_summary computes statistics whose total_operations
is the number of log entries in [startDate 00:00:00, endDate 23:59:59] and
whose per-entity counters count the create entries of each entity kind in
that range; the rendered content contains one bullet line per entry
description, enumerating a list that is a permutation of the in-range
entries sorted ascending by created_at.  On the spec's concrete example
(3 creates on 2024-01-01: 2 events, 1 project) the statistics are
(3, 1, 0, 2, 0) and the content lists the 3 descriptions chronologically. -/
theorem C3_generate_summary_statistics (stype : String) (sd ed : Int) (auto : Bool)
    (now : Int) (logs : List OperationLog) (store : List Summary) :
    ((generate_summary stype sd ed auto now logs store).1.statistics.total_operations =
        (logs.filter (logInRange sd ed)).length ∧
      (generate_summary stype sd ed auto now logs store).1.statistics.new_projects =
        (logs.filter (logInRange sd ed)).countP (isCreateOf "project") ∧
      (generate_summary stype sd ed auto now logs store).1.statistics.new_contacts =
        (logs.filter (logInRange sd ed)).countP (isCreateOf "contact") ∧
      (generate_summary stype sd ed auto now logs store).1.statistics.new_events =
        (logs.filter (logInRange sd ed)).countP (isCreateOf "event") ∧
      (generate_summary stype sd ed auto now logs store).1.statistics.new_activities =
        (logs.filter (logInRange sd ed)).countP (isCreateOf "activity") ∧
      ∃ pre mid post,
        (generate_summary stype sd ed auto now logs store).1.contentLines =
          pre ++ mid.map (fun l => "- " ++ l.description) ++ post ∧
        mid.Perm (logs.filter (logInRange sd ed)) ∧
        List.Sorted (fun a b : OperationLog => a.created_at ≤ b.created_at) mid) ∧
    ((generate_summary "daily" specDay specDay false 0 specLogs []).1.statistics =
        ⟨3, 1, 0, 2, 0⟩ ∧
      (generate_summary "daily" specDay specDay false 0 specLogs []).1.contentLines =
        ["# 2024-01-01 至 2024-01-01 工作总结", "", "生成时间：1970年01月01日 00:00:00", "",
         "---", "", "## 操作记录", "", "- p1", "- e1", "- e2", "", "## 统计数据", "",
         "- 总操作数：3", "- 新增项目：1", "- 新增联系人：0", "- 新增事件：2",
         "- 新增活动：0"]) := by
  have hperm : List.Perm (fetch_operation_logs (sd * 86400) (ed * 86400 + 86399) logs)
      (logs.filter (logInRange sd ed)) := List.perm_insertionSort _ _
  refine ⟨⟨hperm.length_eq, List.Perm.countP_eq _ hperm, List.Perm.countP_eq _ hperm,
    List.Perm.countP_eq _ hperm, List.Perm.countP_eq _ hperm, ?_⟩, by decide, by decide⟩
  by_cases hemp : fetch_operation_logs (sd * 86400) (ed * 86400 + 86399) logs = []
  · refine ⟨summaryHeaderLines sd ed now ++
        summaryRecordLines (fetch_operation_logs (sd * 86400) (ed * 86400 + 86399) logs),
      [], summaryStatLines (fetch_operation_logs (sd * 86400) (ed * 86400 + 86399) logs),
      ?_, ?_, List.sorted_nil⟩
    · show summaryHeaderLines sd ed now ++
        summaryRecordLines (fetch_operation_logs (sd * 86400) (ed * 86400 + 86399) logs) ++
        summaryStatLines (fetch_operation_logs (sd * 86400) (ed * 86400 + 86399) logs) = _
      simp
    · have hfil : logs.filter (logInRange sd ed) = [] := by
        have h2 := hperm
        rw [hemp] at h2
        exact (List.Perm.symm h2).eq_nil
      rw [hfil]
  · refine ⟨summaryHeaderLines sd ed now ++ ["## 操作记录", ""],
      fetch_operation_logs (sd * 86400) (ed * 86400 + 86399) logs,
      summaryStatLines (fetch_operation_logs (sd * 86400) (ed * 86400 + 86399) logs),
      ?_, hperm, List.sorted_insertionSort _ _⟩
    show summaryHeaderLines sd ed now ++
      summaryRecordLines (fetch_operation_logs (sd * 86400) (ed * 86400 + 86399) logs) ++
      summaryStatLines (fetch_operation_logs (sd * 86400) (ed * 86400 + 86399) logs) = _
    have hne : (fetch_operation_logs (sd * 86400) (ed * 86400 + 86399) logs).isEmpty = false := by
      simp [List.isEmpty_iff, hemp]
    rw [summaryRecordLines, if_neg (by simp [hne])]
    simp [List.append_assoc]

/-- Claim C4: starting from a store holding at most one (daily, yesterday)
summary, running the automatic-generation check twice on the same day never
yields two summaries of type daily with the same start_date: the duplicate
count for yesterday stays at most one (the second run sees the count query
return nonzero and skips), and the daily count of every other date is
untouched. -/
theorem C4_no_duplicate_daily (today now1 now2 : Int) (env1 env2 : GenEnv)
    (logs1 logs2 : List OperationLog) (store : List Summary) (d : Int)
    (h : countForPeriod store "daily" (today - 1) <= 1) (hd : d ≠ today - 1) :
    countForPeriod
      (check_and_generate_auto_summaries today env2 now2 logs2
        (check_and_generate_auto_summaries today env1 now1 logs1 store).1).1
      "daily" (today - 1) <= 1 ∧
    countForPeriod
      (check_and_generate_auto_summaries today env2 now2 logs2
        (check_and_generate_auto_summaries today env1 now1 logs1 store).1).1
      "daily" d = countForPeriod store "daily" d := by
  constructor
  · exact check_daily_le today env2 now2 logs2 _ (check_daily_le today env1 now1 logs1 store h)
  · rw [countForPeriod_daily_check, countForPeriod_daily_check]
    simp [hd]

theorem C4_witness :
    countForPeriod ([] : List Summary) "daily" ((20000 : Int) - 1) <= 1 ∧
    ((5 : Int) ≠ (20000 : Int) - 1) ∧
    countForPeriod
      (check_and_generate_auto_summaries 20000 ⟨true, true, true⟩ 0 []
        (check_and_generate_auto_summaries 20000 ⟨true, true, true⟩ 0 [] []).1).1
      "daily" ((20000 : Int) - 1) <= 1 :=
  ⟨by decide, by decide,
   (C4_no_duplicate_daily 20000 0 0 ⟨true, true, true⟩ ⟨true, true, true⟩ [] [] [] 5
      (by decide) (by decide)).1⟩

/-- Claim C7: every weekly summary produced by the automatic check exists
only when today is Monday, and spans exactly the 7 days ending yesterday
(start_date = today - 7, end_date = today - 1). -/
theorem C7_weekly_rule (today : Int) (env : GenEnv) (now : Int)
    (logs : List OperationLog) (store : List Summary) (s : Summary)
    (hs : s ∈ (check_and_generate_auto_summaries today env now logs store).2)
    (ht : s.summary_type = "weekly") :
    isMonday today = true ∧ s.start_date = today - 7 ∧ s.end_date = today - 1 := by
  rw [check_snd] at hs
  rcases List.mem_append.mp hs with h12 | h3
  · rcases List.mem_append.mp h12 with h1 | h2
    · have hda := (mem_dailyStep _ _ _ _ _ h1).1
      rw [ht] at hda
      exact absurd hda (by decide)
    · have hw := mem_weeklyStep _ _ _ _ _ h2
      exact ⟨hw.1, hw.2.2.1, hw.2.2.2⟩
  · have hmo := (mem_monthlyStep _ _ _ _ _ h3).2.1
    rw [ht] at hmo
    exact absurd hmo (by decide)

theorem C7_witness :
    ((check_and_generate_auto_summaries (daysFromCivil 2026 10 12) ⟨false, true, false⟩
        0 [] []).2.headI ∈
      (check_and_generate_auto_summaries (daysFromCivil 2026 10 12) ⟨false, true, false⟩
        0 [] []).2) ∧
    (check_and_generate_auto_summaries (daysFromCivil 2026 10 12) ⟨false, true, false⟩
        0 [] []).2.headI.summary_type = "weekly" ∧
    isMonday (daysFromCivil 2026 10 12) = true :=
  ⟨by decide, by decide,
   (C7_weekly_rule (daysFromCivil 2026 10 12) ⟨false, true, false⟩ 0 [] []
      ((check_and_generate_auto_summaries (daysFromCivil 2026 10 12) ⟨false, true, false⟩
        0 [] []).2.headI)
      (by decide) (by decide)).1⟩

lemma check_snd_daily_indep (today now : Int) (logs : List OperationLog)
    (store : List Summary) (env1 env2 : GenEnv)
    (hw : env1.weeklyOk = env2.weeklyOk) (hm : env1.monthlyOk = env2.monthlyOk) :
    (check_and_generate_auto_summaries today env1 now logs store).2.filter
        (fun s => s.summary_type != "daily") =
      (check_and_generate_auto_summaries today env2 now logs store).2.filter
        (fun s => s.summary_type != "daily") := by
  have hcW : countForPeriod (dailyStep today env1.dailyOk now logs store).1
      "weekly" (today - 7) =
      countForPeriod (dailyStep today env2.dailyOk now logs store).1 "weekly" (today - 7) := by
    rw [countForPeriod_dailyStep_ne _ _ _ _ _ (by decide),
        countForPeriod_dailyStep_ne _ _ _ _ _ (by decide)]
  have hw2 : (weeklyStep today env1.weeklyOk now logs
        (dailyStep today env1.dailyOk now logs store).1).2 =
      (weeklyStep today env2.weeklyOk now logs
        (dailyStep today env2.dailyOk now logs store).1).2 := by
    rw [hw]
    exact weeklyStep_snd_congr today env2.weeklyOk now logs hcW
  have hcM : countForPeriod (weeklyStep today env1.weeklyOk now logs
        (dailyStep today env1.dailyOk now logs store).1).1
        "monthly" (firstOfPrevMonth today) =
      countForPeriod (weeklyStep today env2.weeklyOk now logs
        (dailyStep today env2.dailyOk now logs store).1).1
        "monthly" (firstOfPrevMonth today) := by
    rw [countForPeriod_weeklyStep_ne _ _ _ _ _ (by decide),
        countForPeriod_weeklyStep_ne _ _ _ _ _ (by decide),
        countForPeriod_dailyStep_ne _ _ _ _ _ (by decide),
        countForPeriod_dailyStep_ne _ _ _ _ _ (by decide)]
  have hm2 : (monthlyStep today env1.monthlyOk now logs
        (weeklyStep today env1.weeklyOk now logs
          (dailyStep today env1.dailyOk now logs store).1).1).2 =
      (monthlyStep today env2.monthlyOk now logs
        (weeklyStep today env2.weeklyOk now logs
          (dailyStep today env2.dailyOk now logs store).1).1).2 := by
    rw [hm]
    exact monthlyStep_snd_congr today env2.monthlyOk now logs hcM
  rw [check_snd, check_snd]
  simp only [List.filter_append]
  rw [filter_type_ne_nil (fun s hs => (mem_dailyStep _ _ _ _ _ hs).1),
      filter_type_ne_nil (fun s hs => (mem_dailyStep _ _ _ _ _ hs).1),
      hw2, hm2]

lemma check_snd_weekly_indep (today now : Int) (logs : List OperationLog)
    (store : List Summary) (env1 env2 : GenEnv)
    (hd : env1.dailyOk = env2.dailyOk) (hm : env1.monthlyOk = env2.monthlyOk) :
    (check_and_generate_auto_summaries today env1 now logs store).2.filter
        (fun s => s.summary_type != "weekly") =
      (check_and_generate_auto_summaries today env2 now logs store).2.filter
        (fun s => s.summary_type != "weekly") := by
  have hcM : countForPeriod (weeklyStep today env1.weeklyOk now logs
        (dailyStep today env2.dailyOk now logs store).1).1
        "monthly" (firstOfPrevMonth today) =
      countForPeriod (weeklyStep today env2.weeklyOk now logs
        (dailyStep today env2.dailyOk now logs store).1).1
        "monthly" (firstOfPrevMonth today) := by
    rw [countForPeriod_weeklyStep_ne _ _ _ _ _ (by decide),
        countForPeriod_weeklyStep_ne _ _ _ _ _ (by decide)]
  have hm2 : (monthlyStep today env1.monthlyOk now logs
        (weeklyStep today env1.weeklyOk now logs
          (dailyStep today env2.dailyOk now logs store).1).1).2 =
      (monthlyStep today env2.monthlyOk now logs
        (weeklyStep today env2.weeklyOk now logs
          (dailyStep today env2.dailyOk now logs store).1).1).2 := by
    rw [hm]
    exact monthlyStep_snd_congr today env2.monthlyOk now logs hcM
  rw [check_snd, check_snd, hd]
  simp only [List.filter_append]
  rw [filter_type_ne_nil (fun s hs => (mem_weeklyStep _ _ _ _ _ hs).2.1),
      filter_type_ne_nil (fun s hs => (mem_weeklyStep _ _ _ _ _ hs).2.1),
      hm2]

lemma check_snd_monthly_indep (today now : Int) (logs : List OperationLog)
    (store : List Summary) (env1 env2 : GenEnv)
    (hd : env1.dailyOk = env2.dailyOk) (hw : env1.weeklyOk = env2.weeklyOk) :
    (check_and_generate_auto_summaries today env1 now logs store).2.filter
        (fun s => s.summary_type != "monthly") =
      (check_and_generate_auto_summaries today env2 now logs store).2.filter
        (fun s => s.summary_type != "monthly") := by
  rw [check_snd, check_snd, hd, hw]
  simp only [List.filter_append]
  rw [filter_type_ne_nil (fun s hs => (mem_monthlyStep _ _ _ _ _ hs).2.1),
      filter_type_ne_nil (fun s hs => (mem_monthlyStep _ _ _ _ _ hs).2.1)]

/-- Claim C8: within one invocation of check_and_generate_auto_summaries a
generation/persistence failure of one rule is isolated to that rule: the
summaries produced by the other rules are exactly the same whether the
rule's generate_summary call succeeds or fails. -/
theorem C8_rule_failure_isolation (today now : Int) (logs : List OperationLog)
    (store : List Summary) (dA dB wA wB mA mB : Bool) :
    ((check_and_generate_auto_summaries today ⟨dA, wA, mA⟩ now logs store).2.filter
        (fun s => s.summary_type != "daily") =
      (check_and_generate_auto_summaries today ⟨dB, wA, mA⟩ now logs store).2.filter
        (fun s => s.summary_type != "daily")) ∧
    ((check_and_generate_auto_summaries today ⟨dA, wA, mA⟩ now logs store).2.filter
        (fun s => s.summary_type != "weekly") =
      (check_and_generate_auto_summaries today ⟨dA, wB, mA⟩ now logs store).2.filter
        (fun s => s.summary_type != "weekly")) ∧
    ((check_and_generate_auto_summaries today ⟨dA, wA, mA⟩ now logs store).2.filter
        (fun s => s.summary_type != "monthly") =
      (check_and_generate_auto_summaries today ⟨dA, wA, mB⟩ now logs store).2.filter
        (fun s => s.summary_type != "monthly")) :=
  ⟨check_snd_daily_indep today now logs store ⟨dA, wA, mA⟩ ⟨dB, wA, mA⟩ rfl rfl,
   check_snd_weekly_indep today now logs store ⟨dA, wA, mA⟩ ⟨dA, wB, mA⟩ rfl rfl,
   check_snd_monthly_indep today now logs store ⟨dA, wA, mA⟩ ⟨dA, wA, mB⟩ rfl rfl⟩

/-- Claim C9: the manual generate-summary command performs no existence,
weekday, or day-of-month check: it always appends one new summary row with
is_auto_generated = false, even when the store already holds a summary with
the same (summary_type, start_date), in which case the store ends up with a
duplicate period (count at least 2). -/
theorem C9_manual_generation_unchecked (stype : String) (sd ed : Int) (now : Int)
    (logs : List OperationLog) (store : List Summary) (dup : Summary)
    (hdup : dup ∈ store) (hdt : dup.summary_type = stype) (hds : dup.start_date = sd) :
    (generate_summary stype sd ed false now logs store).2 =
      store ++ [(generate_summary stype sd ed false now logs store).1] ∧
    (generate_summary stype sd ed false now logs store).1.is_auto_generated = false ∧
    (generate_summary stype sd ed false now logs store).2.length = store.length + 1 ∧
    2 <= countForPeriod (generate_summary stype sd ed false now logs store).2 stype sd := by
  refine ⟨rfl, rfl, by simp [generate_summary_snd], ?_⟩
  rw [generate_summary_snd, countForPeriod_append]
  have h1 : 1 <= countForPeriod store stype sd := by
    have hmemf : dup ∈ store.filter (fun s => s.summary_type == stype && s.start_date == sd) :=
      List.mem_filter.mpr ⟨hdup, by simp [hdt, hds]⟩
    exact List.length_pos_of_mem hmemf
  have h2 : countForPeriod [(generate_summary stype sd ed false now logs store).1]
      stype sd = 1 := by
    simp [countForPeriod, gs_type, gs_start]
  omega

theorem C9_witness :
    wSummary ∈ [wSummary] ∧ wSummary.summary_type = "daily" ∧ wSummary.start_date = 0 ∧
    (generate_summary "daily" 0 0 false 0 [] [wSummary]).1.is_auto_generated = false ∧
    2 <= countForPeriod (generate_summary "daily" 0 0 false 0 [] [wSummary]).2 "daily" 0 :=
  ⟨by decide, by decide, by decide,
   (C9_manual_generation_unchecked "daily" 0 0 0 [] [wSummary] wSummary
      (by decide) (by decide) (by decide)).2.1,
   (C9_manual_generation_unchecked "daily" 0 0 0 [] [wSummary] wSummary
      (by decide) (by decide) (by decide)).2.2.2⟩

end Memorystack
